import Mathlib

/-!
Verification of the InfoAPI JSON-RPC binding layer
(src/src/apis/info/api.ts) of the avalanchejs repository.

Each binding method builds a parameter object from its arguments, submits a
named JSON-RPC method call through the shared call primitive
`this.callMethod`, and projects a named field out of the decoded response
data (`response.data["result"][field]`). The shared call primitive
(`JRPCAPI.callMethod` from utils/types) is not part of the supplied sources,
so it is modelled abstractly as a transport: a state-passing function from a
method name and an optional parameter mapping to a resolved response
envelope or a rejection.
-/

/-- Decoded JSON values, as produced by the transport when it decodes a
JSON-RPC response body. -/
inductive JSON where
  | null : JSON
  | bool (b : Bool) : JSON
  | num (n : Int) : JSON
  | str (s : String) : JSON
  | arr (elems : List JSON) : JSON
  | obj (fields : List (String × JSON)) : JSON

/-- JavaScript property access `v[key]`, where `v` may be undefined
(modelled as `none`). Reading a property of undefined or null throws a
TypeError (modelled as an error); reading a property of an object yields the
named field or undefined; reading a named property of any other primitive
yields undefined. -/
def jsGet : Option JSON → String → Except Unit (Option JSON)
  | none, _ => Except.error ()
  | some JSON.null, _ => Except.error ()
  | some (JSON.obj fields), key => Except.ok (fields.lookup key)
  | some _, _ => Except.ok none

/-- Modelled from the spec: the response envelope handed back by the shared
call primitive (`RequestResponseData` from utils/types, not under src/).
The binding layer reads only its `data` field, the decoded JSON body. -/
structure RequestResponseData where
  data : JSON

/-- A failure observable by a caller of a binding method: either the shared
call primitive rejected (a transport or JSON-RPC protocol failure,
propagated), or the field extraction in the `.then` continuation threw a
TypeError. -/
inductive CallError (ε : Type) where
  | transport (e : ε) : CallError ε
  | extraction : CallError ε

/-- The `.then(response => response.data["result"][field])` continuation
shared by every binding method: a rejection of the call primitive passes
through untouched; a TypeError thrown during field extraction rejects the
promise; otherwise the promise resolves to the extracted value, which may be
undefined (`none`). -/
def thenExtract {ε : Type} (call : Except ε RequestResponseData)
    (field : String) : Except (CallError ε) (Option JSON) :=
  match call with
  | Except.error e => Except.error (CallError.transport e)
  | Except.ok response =>
    match jsGet (some response.data) "result" with
    | Except.error _ => Except.error CallError.extraction
    | Except.ok r =>
      match jsGet r field with
      | Except.error _ => Except.error CallError.extraction
      | Except.ok v => Except.ok v

/-- Modelled from the spec: the shared call primitive
(`JRPCAPI.callMethod`, not under src/). One application of `step` is one
outbound request: it consumes a method name and an optional parameter
mapping (the binding methods omit the mapping for some zero-argument
operations), advances the transport state `σ`, and either resolves with a
decoded response envelope or rejects with a failure of type `ε`. -/
structure Transport (σ ε : Type) where
  step : σ → String → Option (List (String × JSON)) →
    Except ε RequestResponseData × σ

variable {σ ε : Type}

namespace InfoAPI

/-- Method `getNodeID` (api.ts lines 22-27): empty params, method
`info.getNodeID`, extracts `result.nodeID`. -/
def getNodeID (T : Transport σ ε) (s : σ) :
    Except (CallError ε) (Option JSON) × σ :=
  let params : List (String × JSON) := []
  let r := T.step s "info.getNodeID" (some params)
  (thenExtract r.1 "nodeID", r.2)

/-- Method `getNetworkID` (api.ts lines 34-39): empty params, method
`info.getNetworkID`, extracts `result.networkID`. -/
def getNetworkID (T : Transport σ ε) (s : σ) :
    Except (CallError ε) (Option JSON) × σ :=
  let params : List (String × JSON) := []
  let r := T.step s "info.getNetworkID" (some params)
  (thenExtract r.1 "networkID", r.2)

/-- Method `alias` (api.ts lines 49-57): params `endpoint`, `alias`; method
`info.alias`; extracts `result.success`. -/
def «alias» (endpoint aliasArg : String) (T : Transport σ ε) (s : σ) :
    Except (CallError ε) (Option JSON) × σ :=
  let params : List (String × JSON) :=
    [("endpoint", JSON.str endpoint), ("alias", JSON.str aliasArg)]
  let r := T.step s "info.alias" (some params)
  (thenExtract r.1 "success", r.2)

/-- Method `aliasChain` (api.ts lines 67-75): params `chain`, `alias`; method
`info.aliasChain`; extracts `result.success`. -/
def aliasChain (chain aliasArg : String) (T : Transport σ ε) (s : σ) :
    Except (CallError ε) (Option JSON) × σ :=
  let params : List (String × JSON) :=
    [("chain", JSON.str chain), ("alias", JSON.str aliasArg)]
  let r := T.step s "info.aliasChain" (some params)
  (thenExtract r.1 "success", r.2)

/-- Method `getBlockchainID` (api.ts lines 84-91): param `alias`; method
`info.getBlockchainID`; extracts `result.blockchainID`. -/
def getBlockchainID (aliasArg : String) (T : Transport σ ε) (s : σ) :
    Except (CallError ε) (Option JSON) × σ :=
  let params : List (String × JSON) := [("alias", JSON.str aliasArg)]
  let r := T.step s "info.getBlockchainID" (some params)
  (thenExtract r.1 "blockchainID", r.2)

/-- Method `getNodeVersion` (api.ts lines 98-102): the params argument is omitted
entirely; method `info.getNodeVersion`; extracts `result.version`. -/
def getNodeVersion (T : Transport σ ε) (s : σ) :
    Except (CallError ε) (Option JSON) × σ :=
  let r := T.step s "info.getNodeVersion" none
  (thenExtract r.1 "version", r.2)

/-- Method `getNetworkName` (api.ts lines 109-113): the params argument is omitted
entirely; method `info.getNetworkName`; extracts `result.networkName`. -/
def getNetworkName (T : Transport σ ε) (s : σ) :
    Except (CallError ε) (Option JSON) × σ :=
  let r := T.step s "info.getNetworkName" none
  (thenExtract r.1 "networkName", r.2)

/-- Method `lockProfile` (api.ts lines 122-129): param `fileName`; method
`info.lockProfile`; extracts `result.success`. -/
def lockProfile (filename : String) (T : Transport σ ε) (s : σ) :
    Except (CallError ε) (Option JSON) × σ :=
  let params : List (String × JSON) := [("fileName", JSON.str filename)]
  let r := T.step s "info.lockProfile" (some params)
  (thenExtract r.1 "success", r.2)

/-- Method `memoryProfile` (api.ts lines 138-145): param `fileName`; method
`info.memoryProfile`; extracts `result.success`. -/
def memoryProfile (filename : String) (T : Transport σ ε) (s : σ) :
    Except (CallError ε) (Option JSON) × σ :=
  let params : List (String × JSON) := [("fileName", JSON.str filename)]
  let r := T.step s "info.memoryProfile" (some params)
  (thenExtract r.1 "success", r.2)

/-- Method `peers` (api.ts lines 152-156): the params argument is omitted
entirely; method `info.peers`; extracts `result.peers`. -/
def peers (T : Transport σ ε) (s : σ) :
    Except (CallError ε) (Option JSON) × σ :=
  let r := T.step s "info.peers" none
  (thenExtract r.1 "peers", r.2)

/-- Method `startCPUProfiler` (api.ts lines 164-171): param `fileName`; method
`info.startCPUProfiler`; extracts `result.success`. -/
def startCPUProfiler (filename : String) (T : Transport σ ε) (s : σ) :
    Except (CallError ε) (Option JSON) × σ :=
  let params : List (String × JSON) := [("fileName", JSON.str filename)]
  let r := T.step s "info.startCPUProfiler" (some params)
  (thenExtract r.1 "success", r.2)

/-- Method `stopCPUProfiler` (api.ts lines 178-182): the params argument is
omitted entirely; method `info.stopCPUProfiler`; extracts
`result.success`. -/
def stopCPUProfiler (T : Transport σ ε) (s : σ) :
    Except (CallError ε) (Option JSON) × σ :=
  let r := T.step s "info.stopCPUProfiler" none
  (thenExtract r.1 "success", r.2)

end InfoAPI

/-- One invocation of an InfoAPI binding method together with its
arguments. -/
inductive InfoInvocation where
  | getNodeID : InfoInvocation
  | getNetworkID : InfoInvocation
  | alias (endpoint aliasArg : String) : InfoInvocation
  | aliasChain (chain aliasArg : String) : InfoInvocation
  | getBlockchainID (aliasArg : String) : InfoInvocation
  | getNodeVersion : InfoInvocation
  | getNetworkName : InfoInvocation
  | lockProfile (filename : String) : InfoInvocation
  | memoryProfile (filename : String) : InfoInvocation
  | peers : InfoInvocation
  | startCPUProfiler (filename : String) : InfoInvocation
  | stopCPUProfiler : InfoInvocation

/-- Run one invocation against a transport: dispatch to the corresponding
binding method. -/
def InfoInvocation.run (inv : InfoInvocation) (T : Transport σ ε) (s : σ) :
    Except (CallError ε) (Option JSON) × σ :=
  match inv with
  | .getNodeID => InfoAPI.getNodeID T s
  | .getNetworkID => InfoAPI.getNetworkID T s
  | .alias endpoint aliasArg => InfoAPI.alias endpoint aliasArg T s
  | .aliasChain chain aliasArg => InfoAPI.aliasChain chain aliasArg T s
  | .getBlockchainID aliasArg => InfoAPI.getBlockchainID aliasArg T s
  | .getNodeVersion => InfoAPI.getNodeVersion T s
  | .getNetworkName => InfoAPI.getNetworkName T s
  | .lockProfile filename => InfoAPI.lockProfile filename T s
  | .memoryProfile filename => InfoAPI.memoryProfile filename T s
  | .peers => InfoAPI.peers T s
  | .startCPUProfiler filename => InfoAPI.startCPUProfiler filename T s
  | .stopCPUProfiler => InfoAPI.stopCPUProfiler T s

/-- The request each invocation submits to the shared call primitive: its
fixed JSON-RPC method name and the parameter mapping built from its own
arguments (`none` when the binding omits the params argument). -/
def InfoInvocation.request :
    InfoInvocation → String × Option (List (String × JSON))
  | .getNodeID => ("info.getNodeID", some [])
  | .getNetworkID => ("info.getNetworkID", some [])
  | .alias endpoint aliasArg =>
      ("info.alias",
       some [("endpoint", JSON.str endpoint), ("alias", JSON.str aliasArg)])
  | .aliasChain chain aliasArg =>
      ("info.aliasChain",
       some [("chain", JSON.str chain), ("alias", JSON.str aliasArg)])
  | .getBlockchainID aliasArg =>
      ("info.getBlockchainID", some [("alias", JSON.str aliasArg)])
  | .getNodeVersion => ("info.getNodeVersion", none)
  | .getNetworkName => ("info.getNetworkName", none)
  | .lockProfile filename =>
      ("info.lockProfile", some [("fileName", JSON.str filename)])
  | .memoryProfile filename =>
      ("info.memoryProfile", some [("fileName", JSON.str filename)])
  | .peers => ("info.peers", none)
  | .startCPUProfiler filename =>
      ("info.startCPUProfiler", some [("fileName", JSON.str filename)])
  | .stopCPUProfiler => ("info.stopCPUProfiler", none)

/-- The fixed field each invocation projects out of the decoded `result`
object. -/
def InfoInvocation.resultField : InfoInvocation → String
  | .getNodeID => "nodeID"
  | .getNetworkID => "networkID"
  | .alias _ _ => "success"
  | .aliasChain _ _ => "success"
  | .getBlockchainID _ => "blockchainID"
  | .getNodeVersion => "version"
  | .getNetworkName => "networkName"
  | .lockProfile _ => "success"
  | .memoryProfile _ => "success"
  | .peers => "peers"
  | .startCPUProfiler _ => "success"
  | .stopCPUProfiler => "success"

/-- Every binding method is exactly one transport step followed by the
shared extraction continuation. -/
theorem InfoInvocation.run_step (inv : InfoInvocation) (T : Transport σ ε)
    (s : σ) :
    inv.run T s =
      (thenExtract (T.step s inv.request.1 inv.request.2).1 inv.resultField,
       (T.step s inv.request.1 inv.request.2).2) := by
  cases inv <;> rfl

/-- A transport that resolves every call with the same decoded body,
leaving its state untouched. -/
def constResponse (d : JSON) : Transport σ Unit :=
  ⟨fun s _ _ => (Except.ok ⟨d⟩, s)⟩

/-- A stateless transport determined by a pure response function: the
response to a call depends only on the submitted method name and parameter
mapping. -/
def statelessT (f : String → Option (List (String × JSON)) →
    Except ε RequestResponseData) : Transport σ ε :=
  ⟨fun s m p => (f m p, s)⟩

/-- A transport whose state records every submitted request in order, and
which rejects every call. -/
def recordT : Transport (List (String × Option (List (String × JSON)))) Unit :=
  ⟨fun s m p => (Except.error (), s ++ [(m, p)])⟩

/-- A transport that counts outbound requests and resolves each of them
with the same decoded body. -/
def countOkT (d : JSON) : Transport Nat Unit :=
  ⟨fun n _ _ => (Except.ok ⟨d⟩, n + 1)⟩

/-- A transport that counts outbound requests and rejects each of them. -/
def countFailT : Transport Nat Unit :=
  ⟨fun n _ _ => (Except.error (), n + 1)⟩

/-- Running an invocation against the recording transport appends exactly
its one request to the record. -/
theorem InfoInvocation.run_recordT (inv : InfoInvocation)
    (s : List (String × Option (List (String × JSON)))) :
    (inv.run recordT s).2 = s ++ [inv.request] := by
  cases inv <;> rfl

/-- Running an invocation against a stateless transport leaves the state
unchanged and resolves to the extraction of the response to its own
request. -/
theorem InfoInvocation.run_statelessT (inv : InfoInvocation)
    (f : String → Option (List (String × JSON)) →
      Except ε RequestResponseData) (s : σ) :
    inv.run (statelessT f) s =
      (thenExtract (f inv.request.1 inv.request.2) inv.resultField, s) := by
  cases inv <;> rfl

/-- Extraction from a resolved envelope whose decoded body is an object
carrying a result object: the promise resolves to the looked-up field of
the result object (undefined when absent). -/
theorem thenExtract_field {ε : Type} (dfields rfields : List (String × JSON))
    (f : String)
    (h : dfields.lookup "result" = some (JSON.obj rfields)) :
    thenExtract (Except.ok ⟨JSON.obj dfields⟩ : Except ε RequestResponseData)
        f = Except.ok (rfields.lookup f) := by
  simp only [thenExtract, jsGet, h]

/-- An InfoAPI instance as constructed: the state the superclass
constructor stores. -/
structure InfoAPIInstance (Core : Type) where
  core : Core
  baseurl : String

/-- Default base path for the info API group (api.ts line 190). -/
def defaultBaseURL : String := "/ext/info"

/-- Modelled from the spec: the JRPCAPI superclass constructor (utils/types,
not under src/) stores the supplied core object and base URL on the
instance; the InfoAPI constructor (api.ts line 190) passes both straight
through to `super`. -/
def InfoAPI.new {Core : Type} (core : Core) (baseurl : String) :
    InfoAPIInstance Core :=
  ⟨core, baseurl⟩

/-- Constructing an InfoAPI without supplying the optional baseurl
argument: the declared default `/ext/info` is used (api.ts line 190). -/
def InfoAPI.newDefault {Core : Type} (core : Core) : InfoAPIInstance Core :=
  InfoAPI.new core defaultBaseURL

/-- Names of the public members of the InfoAPI class (api.ts lines 15-191,
in declaration order). -/
def infoMemberNames : List String :=
  ["getNodeID", "getNetworkID", "alias", "aliasChain", "getBlockchainID",
   "getNodeVersion", "getNetworkName", "lockProfile", "memoryProfile",
   "peers", "startCPUProfiler", "stopCPUProfiler"]

/-- The class member an invocation targets. -/
def InfoInvocation.memberName : InfoInvocation → String
  | .getNodeID => "getNodeID"
  | .getNetworkID => "getNetworkID"
  | .alias _ _ => "alias"
  | .aliasChain _ _ => "aliasChain"
  | .getBlockchainID _ => "getBlockchainID"
  | .getNodeVersion => "getNodeVersion"
  | .getNetworkName => "getNetworkName"
  | .lockProfile _ => "lockProfile"
  | .memoryProfile _ => "memoryProfile"
  | .peers => "peers"
  | .startCPUProfiler _ => "startCPUProfiler"
  | .stopCPUProfiler => "stopCPUProfiler"

/-- Modelled from the spec: JavaScript member access followed by a call on
an InfoAPI instance. A name that is a class member resolves to that bound
method; a name that is not is undefined, and calling undefined throws a
TypeError. The shipped example examples/info/getNodeIP.ts performs
`info.getNodeIP()`. -/
def callMember (name : String) : Except Unit String :=
  if infoMemberNames.contains name then Except.ok name else Except.error ()

/-- C1: for every operation, when the transport resolves with a well-formed
envelope whose decoded data carries the expected result field of the
operation, the promise resolves to exactly the value of that field,
unmodified; in
particular `getNodeVersion` applied to a response whose decoded body is
`\x7b"result": \x7b"version": "avalanche/1.0.0"\x7d\x7d` resolves to
`"avalanche/1.0.0"`. -/
theorem info_roundtrip_resolves_field :
    (∀ (inv : InfoInvocation) (dfields rfields : List (String × JSON))
        (v : JSON),
        dfields.lookup "result" = some (JSON.obj rfields) →
        rfields.lookup inv.resultField = some v →
        inv.run (constResponse (JSON.obj dfields)) () =
          (Except.ok (some v), ()))
  ∧ (InfoAPI.getNodeVersion (constResponse (JSON.obj
        [("result", JSON.obj [("version", JSON.str "avalanche/1.0.0")])]))
        ()).1
      = Except.ok (some (JSON.str "avalanche/1.0.0")) := by
  constructor
  · intro inv dfields rfields v h1 h2
    rw [InfoInvocation.run_step]
    show (thenExtract (Except.ok ⟨JSON.obj dfields⟩) inv.resultField, ()) = _
    rw [thenExtract_field dfields rfields inv.resultField h1, h2]
  · rfl

/-- Witness for C1: the general round-trip statement applied to the
`getNodeID` operation and a concrete response carrying a nodeID string. -/
theorem info_roundtrip_resolves_field_witness :
    InfoInvocation.getNodeID.run (constResponse (JSON.obj
        [("result", JSON.obj [("nodeID", JSON.str "NodeID-abc123")])])) ()
      = (Except.ok (some (JSON.str "NodeID-abc123")), ()) :=
  info_roundtrip_resolves_field.1 InfoInvocation.getNodeID
    [("result", JSON.obj [("nodeID", JSON.str "NodeID-abc123")])]
    [("nodeID", JSON.str "NodeID-abc123")]
    (JSON.str "NodeID-abc123") rfl rfl

/-- Counterexample for C2: `getNodeVersion` is a zero-input operation, yet
the request it submits to the call primitive carries no parameter mapping
at all (the params argument is omitted, recorded here as `none`, for which
`Option.isSome` is `false`), not a parameter mapping with no keys. -/
theorem getNodeVersion_no_params_counterexample :
    (InfoInvocation.getNodeVersion.run recordT []).2
        = [("info.getNodeVersion", (none : Option (List (String × JSON))))]
    ∧ ((InfoInvocation.getNodeVersion.run recordT []).2.map
        (fun r => r.2.isSome)) = [false] :=
  ⟨rfl, rfl⟩

/-- C2 (amended): every invocation submits exactly its documented request:
the fixed method name and the parameter mapping binding exactly the
documented keys to the passed argument values, with no extra and no omitted
keys; the zero-input operations `getNodeID` and `getNetworkID` submit an
empty parameter mapping, while `getNodeVersion`, `getNetworkName`, `peers`
and `stopCPUProfiler` omit the parameter mapping entirely. In particular
`alias "bc/X" "xchain"` submits method `info.alias` with parameters binding
`endpoint` to `"bc/X"` and `alias` to `"xchain"`. -/
theorem info_request_exact_keys :
    (∀ (inv : InfoInvocation)
        (s : List (String × Option (List (String × JSON)))),
        (inv.run recordT s).2 = s ++ [inv.request])
  ∧ ((InfoInvocation.alias "bc/X" "xchain").run recordT []).2
      = [("info.alias", some [("endpoint", JSON.str "bc/X"),
          ("alias", JSON.str "xchain")])]
  ∧ (InfoInvocation.getNodeID.run recordT []).2
      = [("info.getNodeID", some [])]
  ∧ (InfoInvocation.getNodeVersion.run recordT []).2
      = [("info.getNodeVersion", none)] :=
  ⟨fun inv s => InfoInvocation.run_recordT inv s, rfl, rfl, rfl⟩

/-- Counterexample for C3: against an otherwise successful response whose
result object is empty, `getNodeID` does not surface any malformed-response
error: its promise resolves successfully, to the undefined value (`none`). -/
theorem missing_field_no_error_counterexample :
    (InfoInvocation.getNodeID.run (constResponse (JSON.obj
        [("result", JSON.obj [])])) ()).1 = Except.ok none :=
  rfl

/-- C3 (amended): for every operation, when the transport resolves with a
response whose result object lacks the expected field of the operation,
the operation resolves successfully to an undefined value (`none`) — no
distinguishable malformed-response error is surfaced to the caller. -/
theorem missing_field_resolves_undefined :
    ∀ (inv : InfoInvocation) (rfields : List (String × JSON)),
      rfields.lookup inv.resultField = none →
      inv.run (constResponse (JSON.obj [("result", JSON.obj rfields)])) ()
        = (Except.ok none, ()) := by
  intro inv rfields h
  rw [InfoInvocation.run_step]
  show (thenExtract (Except.ok ⟨JSON.obj [("result", JSON.obj rfields)]⟩)
    inv.resultField, ()) = _
  rw [thenExtract_field [("result", JSON.obj rfields)] rfields
    inv.resultField rfl, h]

/-- Witness for C3 (amended): `getNodeID` against an empty result object
resolves to undefined. -/
theorem missing_field_resolves_undefined_witness :
    InfoInvocation.getNodeID.run (constResponse (JSON.obj
        [("result", JSON.obj [])])) () = (Except.ok none, ()) :=
  missing_field_resolves_undefined InfoInvocation.getNodeID [] rfl

/-- C4: for every operation, whenever the shared call primitive rejects the
own request of the operation with a failure, the promise of the operation
rejects
with that same failure, propagated unchanged — no error is swallowed,
translated or retried. -/
theorem transport_failure_propagates :
    ∀ {σ ε : Type} (T : Transport σ ε) (s : σ) (inv : InfoInvocation)
      (e : ε) (s2 : σ),
      T.step s inv.request.1 inv.request.2 = (Except.error e, s2) →
      inv.run T s = (Except.error (CallError.transport e), s2) := by
  intro σ ε T s inv e s2 h
  rw [InfoInvocation.run_step, h]
  rfl

/-- Witness for C4: a transport that rejects every call with the failure
code 7 makes `peers` reject with exactly that failure. -/
theorem transport_failure_propagates_witness :
    InfoInvocation.peers.run
        (statelessT (fun _ _ => Except.error 7) : Transport Nat Nat) 0
      = (Except.error (CallError.transport 7), 0) :=
  transport_failure_propagates
    (statelessT (fun _ _ => Except.error 7) : Transport Nat Nat) 0
    InfoInvocation.peers 7 0 rfl

/-- C5: `peers` against a response whose decoded body is
`\x7b"result": \x7b"peers": ["1.2.3.4:9650", "5.6.7.8:9650"]\x7d\x7d` resolves to
exactly that sequence of address strings, and in general `peers` resolves
to the `result.peers` field of the decoded response. -/
theorem peers_returns_peers_field :
    (InfoAPI.peers (constResponse (JSON.obj [("result", JSON.obj
        [("peers", JSON.arr [JSON.str "1.2.3.4:9650",
          JSON.str "5.6.7.8:9650"])])])) ()).1
      = Except.ok (some (JSON.arr [JSON.str "1.2.3.4:9650",
          JSON.str "5.6.7.8:9650"]))
  ∧ ∀ (rfields : List (String × JSON)) (v : JSON),
      rfields.lookup "peers" = some v →
      (InfoAPI.peers (constResponse (JSON.obj
          [("result", JSON.obj rfields)])) ()).1 = Except.ok (some v) := by
  constructor
  · rfl
  · intro rfields v h
    show thenExtract (Except.ok ⟨JSON.obj [("result", JSON.obj rfields)]⟩
        : Except Unit RequestResponseData) "peers" = Except.ok (some v)
    rw [thenExtract_field [("result", JSON.obj rfields)] rfields "peers" rfl,
      h]

/-- Witness for C5: the general part applied to a one-element peer list. -/
theorem peers_returns_peers_field_witness :
    (InfoAPI.peers (constResponse (JSON.obj [("result", JSON.obj
        [("peers", JSON.arr [JSON.str "9.9.9.9:9650"])])])) ()).1
      = Except.ok (some (JSON.arr [JSON.str "9.9.9.9:9650"])) :=
  peers_returns_peers_field.2
    [("peers", JSON.arr [JSON.str "9.9.9.9:9650"])]
    (JSON.arr [JSON.str "9.9.9.9:9650"]) rfl

/-- Counterexample for C6: a successful call of `getNetworkID` can resolve
to a value that is not a number. Against an otherwise successful response
whose decoded body carries the string `"not-a-number"` as
`result.networkID`, the promise resolves successfully to exactly that
string — the binding performs no runtime check or conversion, so the
resolved value of a successful call need not be a number. -/
theorem getNetworkID_nonnumeric_counterexample :
    (InfoAPI.getNetworkID (constResponse (JSON.obj
        [("result", JSON.obj [("networkID", JSON.str "not-a-number")])]))
        ()).1
      = Except.ok (some (JSON.str "not-a-number")) :=
  rfl

/-- C6 (amended): `getNetworkID` takes no inputs — the request it submits
carries the method name `info.getNetworkID` and an empty parameter
mapping — and for every successful call it resolves to exactly the
extracted `result.networkID` field, unvalidated: whatever value the decoded
response carries there is returned unmodified, and that value is a number
exactly when the response carries a numeric `result.networkID` (in which
case the promise resolves to that number). -/
theorem getNetworkID_returns_networkID_field :
    InfoInvocation.getNetworkID.request = ("info.getNetworkID", some [])
  ∧ (∀ (rfields : List (String × JSON)) (v : JSON),
      rfields.lookup "networkID" = some v →
      (InfoAPI.getNetworkID (constResponse (JSON.obj
          [("result", JSON.obj rfields)])) ()).1
        = Except.ok (some v))
  ∧ (∀ (rfields : List (String × JSON)) (n : Int),
      rfields.lookup "networkID" = some (JSON.num n) →
      (InfoAPI.getNetworkID (constResponse (JSON.obj
          [("result", JSON.obj rfields)])) ()).1
        = Except.ok (some (JSON.num n))) := by
  refine ⟨rfl, ?_, ?_⟩
  · intro rfields v h
    show thenExtract (Except.ok ⟨JSON.obj [("result", JSON.obj rfields)]⟩
        : Except Unit RequestResponseData) "networkID"
      = Except.ok (some v)
    rw [thenExtract_field [("result", JSON.obj rfields)] rfields
      "networkID" rfl, h]
  · intro rfields n h
    show thenExtract (Except.ok ⟨JSON.obj [("result", JSON.obj rfields)]⟩
        : Except Unit RequestResponseData) "networkID"
      = Except.ok (some (JSON.num n))
    rw [thenExtract_field [("result", JSON.obj rfields)] rfields
      "networkID" rfl, h]

/-- Witness for C6 (amended): a response carrying networkID 12345 resolves
to the number 12345. -/
theorem getNetworkID_returns_networkID_field_witness :
    (InfoAPI.getNetworkID (constResponse (JSON.obj
        [("result", JSON.obj [("networkID", JSON.num 12345)])])) ()).1
      = Except.ok (some (JSON.num 12345)) :=
  getNetworkID_returns_networkID_field.2.2
    [("networkID", JSON.num 12345)] 12345 rfl

/-- C7: every invocation of every operation performs exactly one transport
step — its own documented request — and nothing else: the final transport
state is the state after that single step, and against a counting transport
the request count rises by exactly one whether the call resolves or
rejects (no caching elides the request, no retry issues a second one). -/
theorem exactly_one_request_per_call :
    (∀ {σ ε : Type} (T : Transport σ ε) (s : σ) (inv : InfoInvocation),
        inv.run T s
          = (thenExtract (T.step s inv.request.1 inv.request.2).1
              inv.resultField,
             (T.step s inv.request.1 inv.request.2).2))
  ∧ (∀ (inv : InfoInvocation) (d : JSON) (n : Nat),
        (inv.run (countOkT d) n).2 = n + 1)
  ∧ (∀ (inv : InfoInvocation) (n : Nat),
        (inv.run countFailT n).2 = n + 1) := by
  refine ⟨?_, ?_, ?_⟩
  · intro σ ε T s inv
    exact InfoInvocation.run_step inv T s
  · intro inv d n
    rw [InfoInvocation.run_step]
    rfl
  · intro inv n
    rw [InfoInvocation.run_step]
    rfl

/-- C8: concurrent invocations share no mutable parameter state. Running
any two invocations in either interleaving through the recording transport
records for each of them its own fresh request, unaltered by the other;
against any stateless transport, the result of a second invocation is
identical to its result in isolation (the first call cannot contaminate
it); and the result of an invocation depends only on the response that its
own request receives. -/
theorem concurrent_calls_no_interference :
    (∀ (A B : InfoInvocation)
        (s : List (String × Option (List (String × JSON)))),
        (B.run recordT ((A.run recordT s).2)).2
          = s ++ [A.request, B.request])
  ∧ (∀ {σ ε : Type}
        (f : String → Option (List (String × JSON)) →
          Except ε RequestResponseData) (s : σ) (A B : InfoInvocation),
        (B.run (statelessT f) ((A.run (statelessT f) s).2)).1
          = (B.run (statelessT f) s).1)
  ∧ (∀ {ε : Type}
        (f g : String → Option (List (String × JSON)) →
          Except ε RequestResponseData) (A : InfoInvocation),
        f A.request.1 A.request.2 = g A.request.1 A.request.2 →
        (A.run (statelessT f : Transport Unit ε) ()).1
          = (A.run (statelessT g) ()).1) := by
  refine ⟨?_, ?_, ?_⟩
  · intro A B s
    rw [InfoInvocation.run_recordT, InfoInvocation.run_recordT,
      List.append_assoc]
    rfl
  · intro σ ε f s A B
    rw [InfoInvocation.run_statelessT, InfoInvocation.run_statelessT,
      InfoInvocation.run_statelessT]
  · intro ε f g A h
    rw [InfoInvocation.run_statelessT, InfoInvocation.run_statelessT, h]

/-- Witness for C8: two response functions that agree on the request of
`getNodeID` give `getNodeID` the same result. -/
theorem concurrent_calls_no_interference_witness :
    (InfoInvocation.getNodeID.run
        (statelessT (fun m _ => if m = "info.getNodeID"
          then Except.error () else Except.ok ⟨JSON.null⟩)
          : Transport Unit Unit) ()).1
      = (InfoInvocation.getNodeID.run
          (statelessT (fun _ _ => Except.error ())) ()).1 :=
  concurrent_calls_no_interference.2.2
    (fun m _ => if m = "info.getNodeID"
      then Except.error () else Except.ok ⟨JSON.null⟩)
    (fun _ _ => Except.error ()) InfoInvocation.getNodeID rfl

/-- C9: constructing an InfoAPI without supplying a base URL uses the
default base path `/ext/info`: for every core object, the instance built
from the core alone equals the instance built from the core and the
explicit string `/ext/info`, and its stored base URL is `/ext/info`. -/
theorem constructor_default_baseurl :
    ∀ (Core : Type) (c : Core),
      InfoAPI.newDefault c = InfoAPI.new c "/ext/info"
      ∧ (InfoAPI.newDefault c).baseurl = "/ext/info" :=
  fun _ _ => ⟨rfl, rfl⟩

/-- C10: the public interface of the InfoAPI class consists of exactly the
twelve listed operations — pairwise distinct, and every invocation targets
one of them — and `getNodeIP` is not among them, so the call
`info.getNodeIP()` in the shipped example resolves an undefined member and
fails rather than
returning a node IP. -/
theorem infoAPI_surface_no_getNodeIP :
    infoMemberNames.length = 12
  ∧ infoMemberNames.Nodup
  ∧ (∀ inv : InfoInvocation, inv.memberName ∈ infoMemberNames)
  ∧ infoMemberNames.contains "getNodeIP" = false
  ∧ callMember "getNodeIP" = Except.error () := by
  refine ⟨rfl, by decide, ?_, by decide, ?_⟩
  · intro inv
    cases inv <;> simp [InfoInvocation.memberName, infoMemberNames]
  · rfl
